import Mathlib

/-!
# Verification of the go-cdp-sdk client library

Shallow embedding of the `darwinOrg/go-cdp-sdk` Go repository:
the WebSocket client (`websocket_client.go`), the HTTP request/reply
client (`http_client.go`) and the Page/Locator facade (`locator.go`,
`page.go`), together with proofs and refutations of the specified
properties.

Modelling conventions:
* Go `map[int]chan *Response` (the correlation table) is modelled as the
  list of registered keys (`pendingReqs : List Nat`) plus, separately, the
  buffer content of the one-slot channel created for each request id
  (`chanBuf : Nat → Option Response`); an entry deleted from the table
  does not destroy the channel, exactly as in Go, where the waiting
  goroutine still holds a reference to it.
* `fmt.Sprintf("%d", id)` is `Nat.repr id`.  The `requestID` counter is a
  Go `int` that is only ever incremented, once per network round trip, so
  it can never reach `2^63` within a connection's lifetime; it is modelled
  as `Nat`.
* JSON payload values (`map[string]interface{}`) are modelled as
  association lists over a value type covering exactly the shapes this
  client ever reads back (strings, booleans, numbers, and arrays used by
  the page-list field); the client never inspects nested objects.
* Effects of the network are passed in explicitly: dial results, wire
  replies and unmarshal outcomes are arguments, a panic is `Option.none`.
-/

/-- JSON scalar values appearing in request/response payloads. -/
inductive JsonAtom where
  | null : JsonAtom
  | bool (b : Bool) : JsonAtom
  | num (n : Int) : JsonAtom
  | str (s : String) : JsonAtom
deriving DecidableEq, Repr

/-- A JSON payload value: a scalar or an array of scalars (the only array
the client ever reads is the `pages` list of page-id strings). -/
inductive JsonValue where
  | atom (a : JsonAtom) : JsonValue
  | arr (l : List JsonAtom) : JsonValue
deriving DecidableEq, Repr

/-- A free-form JSON object payload, as an association list. -/
abbrev JsonObject := List (String × JsonValue)

/-- Look up a key in a JSON object (Go `m["key"]`, first binding wins). -/
def JsonObject.lookup (o : JsonObject) (k : String) : Option JsonValue :=
  (o.find? (fun p => p.1 == k)).map (·.2)

namespace cdp

/-- `Request` from `websocket_client.go`: one outbound WebSocket frame. -/
structure Request where
  type : String := ""
  sessionId : String := ""
  pageId : String := ""
  requestId : String := ""
  data : JsonObject := []
deriving DecidableEq, Repr

/-- `Response` from `websocket_client.go`: one inbound WebSocket frame. -/
structure Response where
  type : String := ""
  sessionId : String := ""
  pageId : String := ""
  requestId : String := ""
  success : Bool := false
  data : JsonObject := []
  error : String := ""
  event : String := ""
  eventData : JsonObject := []
  timestamp : String := ""
deriving DecidableEq, Repr

/-- The mutable state of a `WebSocketClient` (`websocket_client.go`).
`connected` is `wsc.conn != nil`; `pendingReqs` is the key set of the
correlation table `map[int]chan *Response`; `chanBuf id` is the content of
the one-slot buffered channel that was registered under `id` (it survives
deletion of the table entry, as the waiting goroutine holds it);
`doneClosed` records whether `close(wsc.done)` has happened. -/
structure WSClientState where
  connected : Bool
  url : String
  sessionID : String
  requestID : Nat
  pendingReqs : List Nat
  chanBuf : Nat → Option Response
  doneClosed : Bool

/-- `NewWebSocketClient(url, sessionID)`: a blank session id is replaced by
`fmt.Sprintf("session-%d", time.Now().UnixNano())`; the current clock value
is passed in explicitly as `nowNano`. -/
def NewWebSocketClient (url sessionID : String) (nowNano : Nat) : WSClientState :=
  { connected := false
    url := url
    sessionID := if sessionID == "" then "session-" ++ Nat.repr nowNano else sessionID
    requestID := 0
    pendingReqs := []
    chanBuf := fun _ => none
    doneClosed := false }

/-- `Connect(ctx)`: on a successful dial the connection is stored and the
reader goroutine starts; on failure the state is unchanged. -/
def WSClientState.Connect (s : WSClientState) (dialOk : Bool) :
    WSClientState × Option String :=
  if dialOk then ({ s with connected := true }, none)
  else (s, some "failed to connect to WebSocket server")

/-- `Close()`: runs `close(wsc.done)` first — in Go, closing an
already-closed channel panics, which the result `none` represents.
Otherwise `done` becomes closed and, when a connection exists,
`conn.Close()` runs (its error is the external input `connCloseErr`). -/
def WSClientState.Close (s : WSClientState) (connCloseErr : Option String) :
    Option (WSClientState × Option String) :=
  if s.doneClosed then none
  else
    some ({ s with doneClosed := true },
          if s.connected then connCloseErr else none)

/-- `handleResponse(resp)` (`websocket_client.go` lines 136–163): an event
frame is dispatched to handlers (no table change); otherwise a frame with a
non-empty `RequestID` is matched against the table by comparing
`fmt.Sprintf("%d", id)` with the frame's id; on a match the one-slot
channel is filled if empty (`select`/`default`) and the entry deleted;
everything else is dropped with no state change. -/
def WSClientState.handleResponse (s : WSClientState) (resp : Response) :
    WSClientState :=
  if resp.event ≠ "" then s
  else if resp.requestId ≠ "" then
    match s.pendingReqs.find? (fun id => Nat.repr id == resp.requestId) with
    | some id =>
      if (s.chanBuf id).isNone then
        { s with pendingReqs := s.pendingReqs.erase id
                 chanBuf := fun j => if j = id then some resp else s.chanBuf j }
      else s
    | none => s
  else s

/-- First phase of `sendRequest` (lines 166–198), performed under the lock:
fail when not connected; otherwise allocate the next request id, stamp the
request with it and with the session id, and register a fresh empty
one-slot channel under the new id.  Marshal/write failures are handled by
`WSClientState.sendFailCleanup` below. -/
def WSClientState.sendPrepare (s : WSClientState) (req : Request) :
    WSClientState × Option (Nat × Request) × Option String :=
  if !s.connected then
    (s, none, some "not connected to WebSocket server")
  else
    let newId := s.requestID + 1
    let req' := { req with requestId := Nat.repr newId, sessionId := s.sessionID }
    ({ s with requestID := newId
              pendingReqs := s.pendingReqs ++ [newId]
              chanBuf := fun j => if j = newId then none else s.chanBuf j },
     some (newId, req'), none)

/-- Cleanup on a marshal or write failure (lines 184–195): still under the
same lock that allocated the id, so `wsc.requestID` is this call's own id. -/
def WSClientState.sendFailCleanup (s : WSClientState) : WSClientState :=
  { s with pendingReqs := s.pendingReqs.erase s.requestID }

/-- Cleanup on timeout or context cancellation (lines 204–213): the lock is
re-acquired and `delete(wsc.pendingReqs, wsc.requestID)` runs — the key is
the CURRENT value of the shared counter, not the id this call allocated. -/
def WSClientState.timeoutCleanup (s : WSClientState) : WSClientState :=
  { s with pendingReqs := s.pendingReqs.erase s.requestID }

/-- The waiting caller's `resp := <-respCh` for the call that allocated
`id`: the content of that call's one-slot channel. -/
def WSClientState.receive (s : WSClientState) (id : Nat) : Option Response :=
  s.chanBuf id

/-- A connected client as produced by `NewWebSocketClient` + a successful
`Connect`, before any request. -/
def initConnected (url sessionID : String) (nowNano : Nat) : WSClientState :=
  ((NewWebSocketClient url sessionID nowNano).Connect true).1

/-- State after `n` sendRequest registrations (each one the locked phase of
a concurrent caller), with the `k`-th caller sending `reqs k`. -/
def sendSteps (s : WSClientState) (reqs : Nat → Request) : Nat → WSClientState
  | 0 => s
  | n + 1 => ((sendSteps s reqs n).sendPrepare (reqs n)).1

end cdp

/-!
## Injectivity of the decimal rendering `Nat.repr`

`sendRequest` stamps frames with `fmt.Sprintf("%d", id)` and
`handleResponse` matches table keys by comparing that rendering with the
frame's `requestId` string, so correlation correctness rests on decimal
rendering being injective.
-/

/-- Left inverse of `Nat.digitChar` on decimal digits. -/
def digitVal (c : Char) : Nat := c.toNat - '0'.toNat

theorem digitVal_digitChar : ∀ d : Nat, d < 10 → digitVal (Nat.digitChar d) = d := by
  decide

theorem toDigitsCore_eq_digits :
    ∀ (fuel : Nat) (n : Nat) (acc : List Char), 0 < n → n < 10 ^ fuel →
      Nat.toDigitsCore 10 fuel n acc
        = ((Nat.digits 10 n).map Nat.digitChar).reverse ++ acc := by
  intro fuel
  induction fuel with
  | zero => intro n acc hn hlt; simp at hlt; omega
  | succ f ih =>
    intro n acc hn hlt
    rw [Nat.toDigitsCore]
    by_cases hdiv : n / 10 = 0
    · rw [if_pos hdiv, Nat.digits_def' (by norm_num : (1:ℕ) < 10) hn, hdiv,
        Nat.digits_zero]
      simp
    · rw [if_neg hdiv,
        ih (n / 10) (Nat.digitChar (n % 10) :: acc) (Nat.pos_of_ne_zero hdiv)
          (by
            rw [Nat.div_lt_iff_lt_mul (by norm_num : (0:ℕ) < 10)]
            calc n < 10 ^ (f + 1) := hlt
              _ = 10 ^ f * 10 := by rw [pow_succ]),
        Nat.digits_def' (by norm_num : (1:ℕ) < 10) hn]
      simp

theorem toDigits_eq_digits (n : Nat) (hn : 0 < n) :
    Nat.toDigits 10 n = ((Nat.digits 10 n).map Nat.digitChar).reverse := by
  rw [Nat.toDigits, toDigitsCore_eq_digits (n + 1) n [] hn
    (lt_of_lt_of_le (Nat.lt_pow_self (by norm_num) n)
      (Nat.pow_le_pow_right (by norm_num) (Nat.le_succ n)))]
  simp

theorem map_digitVal_map_digitChar (l : List Nat) (h : ∀ d ∈ l, d < 10) :
    (l.map Nat.digitChar).map digitVal = l := by
  rw [List.map_map]
  conv_rhs => rw [(List.map_id l).symm]
  exact List.map_congr_left fun d hd => digitVal_digitChar d (h d hd)

theorem toDigits_ten_zero : Nat.toDigits 10 0 = ['0'] := by
  decide

theorem nat_repr_injective : Function.Injective Nat.repr := by
  intro m n h
  have hdig : Nat.toDigits 10 m = Nat.toDigits 10 n := by
    have := congrArg String.data h
    simpa [Nat.repr, List.asString] using this
  have singleton_zero : ∀ k : Nat, k ≠ 0 →
      (Nat.digits 10 k).map Nat.digitChar ≠ ['0'] := by
    intro k hk h0
    obtain ⟨d, hd, hchar⟩ : ∃ d, Nat.digits 10 k = [d] ∧ Nat.digitChar d = '0' := by
      cases hl : Nat.digits 10 k with
      | nil => rw [hl] at h0; simp at h0
      | cons d t =>
        cases t with
        | nil => rw [hl] at h0; simp at h0; exact ⟨d, rfl, h0⟩
        | cons e t2 => rw [hl] at h0; simp at h0
    have hlt : d < 10 :=
      Nat.digits_lt_base (by norm_num) (by rw [hd]; exact List.mem_singleton.mpr rfl)
    have hd0 : d = 0 := by
      have hv : digitVal (Nat.digitChar d) = digitVal '0' := by rw [hchar]
      rwa [digitVal_digitChar d hlt] at hv
    have := congrArg (Nat.ofDigits 10) hd
    rw [Nat.ofDigits_digits, hd0] at this
    simp [Nat.ofDigits] at this
    exact hk this
  by_cases hm : m = 0 <;> by_cases hn : n = 0
  · omega
  · exfalso
    subst hm
    rw [toDigits_ten_zero, toDigits_eq_digits n (Nat.pos_of_ne_zero hn)] at hdig
    refine singleton_zero n hn ?_
    have := congrArg List.reverse hdig
    simpa using this.symm
  · exfalso
    subst hn
    rw [toDigits_ten_zero, toDigits_eq_digits m (Nat.pos_of_ne_zero hm)] at hdig
    refine singleton_zero m hm ?_
    have := congrArg List.reverse hdig
    simpa using this
  · rw [toDigits_eq_digits m (Nat.pos_of_ne_zero hm),
      toDigits_eq_digits n (Nat.pos_of_ne_zero hn)] at hdig
    have hmapeq : (Nat.digits 10 m).map Nat.digitChar
        = (Nat.digits 10 n).map Nat.digitChar := by
      have := congrArg List.reverse hdig
      simpa using this
    have hdigeq : Nat.digits 10 m = Nat.digits 10 n := by
      have := congrArg (List.map digitVal) hmapeq
      rwa [map_digitVal_map_digitChar _ (fun d hd => Nat.digits_lt_base (by norm_num) hd),
        map_digitVal_map_digitChar _ (fun d hd => Nat.digits_lt_base (by norm_num) hd)]
        at this
    have := congrArg (Nat.ofDigits 10) hdigeq
    rwa [Nat.ofDigits_digits, Nat.ofDigits_digits] at this

/-- The decimal rendering of a natural number is never the empty string. -/
theorem nat_repr_ne_empty (k : Nat) : Nat.repr k ≠ "" := by
  cases Nat.eq_zero_or_pos k with
  | inl h => subst h; decide
  | inr h =>
    intro hcontra
    have hnil : Nat.toDigits 10 k = [] := by
      have := congrArg String.data hcontra
      simpa [Nat.repr, List.asString] using this
    rw [toDigits_eq_digits k h] at hnil
    simp at hnil
    exact Nat.digits_ne_nil_iff_ne_zero.mpr (Nat.pos_iff_ne_zero.mp h) hnil

/-- `find?` returns the unique element satisfying a predicate that holds
for no other value. -/
theorem find?_eq_some_of_unique {l : List Nat} {p : Nat → Bool} {i : Nat}
    (hmem : i ∈ l) (hpi : p i = true) (huniq : ∀ x, p x = true → x = i) :
    l.find? p = some i := by
  induction l with
  | nil => simp at hmem
  | cons a t ih =>
    by_cases ha : p a = true
    · have := huniq a ha
      subst this
      rw [List.find?_cons_of_pos _ ha]
    · rw [List.find?_cons_of_neg _ (by simpa using ha)]
      rcases List.mem_cons.mp hmem with h | h
      · exact absurd (h ▸ hpi) ha
      · exact ih h

namespace cdp

/-- Computation of `handleResponse` on a correlated reply: a frame that is
not an event and whose `requestId` is the rendering of a registered id with
an empty one-slot channel fills that channel and deletes the table entry. -/
theorem handleResponse_found (s : WSClientState) (r : Response) (i : Nat)
    (hev : r.event = "") (hid : r.requestId = Nat.repr i)
    (hmem : i ∈ s.pendingReqs) (hbuf : s.chanBuf i = none) :
    s.handleResponse r =
      { s with pendingReqs := s.pendingReqs.erase i
               chanBuf := fun j => if j = i then some r else s.chanBuf j } := by
  unfold WSClientState.handleResponse
  rw [if_neg (by simp [hev]), if_pos (by rw [hid]; exact nat_repr_ne_empty i)]
  have hfind : s.pendingReqs.find? (fun id => Nat.repr id == r.requestId) = some i := by
    refine find?_eq_some_of_unique hmem ?_ ?_
    · rw [hid]; exact beq_self_eq_true _
    · intro x hx
      rw [hid] at hx
      exact nat_repr_injective (eq_of_beq hx)
  rw [hfind]
  simp [hbuf]

/-- Delivering, in any order, one matching reply for each undelivered
request id empties the correlation table, fills every caller's channel with
exactly its own reply, and leaves all other channels untouched. -/
theorem handle_deliver_all (g : Nat → Response) :
    ∀ (todo : List Nat) (s : WSClientState),
      todo.Nodup →
      s.pendingReqs.Perm todo →
      (∀ i ∈ todo, (g i).event = "" ∧ (g i).requestId = Nat.repr i) →
      (∀ i ∈ todo, s.chanBuf i = none) →
      (todo.foldl (fun st i => st.handleResponse (g i)) s).pendingReqs = [] ∧
      (∀ i ∈ todo,
        (todo.foldl (fun st i => st.handleResponse (g i)) s).chanBuf i = some (g i)) ∧
      (∀ j, j ∉ todo →
        (todo.foldl (fun st i => st.handleResponse (g i)) s).chanBuf j = s.chanBuf j) := by
  intro todo
  induction todo with
  | nil =>
    intro s _ hperm _ _
    refine ⟨hperm.eq_nil, ?_, ?_⟩ <;> simp
  | cons i rest ih =>
    intro s hnodup hperm hg hbuf
    have hmem : i ∈ s.pendingReqs := hperm.mem_iff.mpr (List.mem_cons_self i rest)
    have hstep := handleResponse_found s (g i) i
      (hg i (List.mem_cons_self i rest)).1 (hg i (List.mem_cons_self i rest)).2
      hmem (hbuf i (List.mem_cons_self i rest))
    set s1 : WSClientState :=
      { s with pendingReqs := s.pendingReqs.erase i
               chanBuf := fun j => if j = i then some (g i) else s.chanBuf j } with hs1
    have hinotrest : i ∉ rest := (List.nodup_cons.mp hnodup).1
    have hperm1 : s1.pendingReqs.Perm rest := by
      have := hperm.erase i
      rwa [List.erase_cons_head] at this
    have hbuf1 : ∀ j ∈ rest, s1.chanBuf j = none := by
      intro j hj
      have hji : j ≠ i := fun hcontra => hinotrest (hcontra ▸ hj)
      rw [hs1]
      simp only [if_neg hji]
      exact hbuf j (List.mem_cons_of_mem i hj)
    have hrest := ih s1 (List.nodup_cons.mp hnodup).2 hperm1
      (fun j hj => hg j (List.mem_cons_of_mem i hj)) hbuf1
    have hfold : (i :: rest).foldl (fun st k => st.handleResponse (g k)) s
        = rest.foldl (fun st k => st.handleResponse (g k)) s1 := by
      rw [List.foldl_cons, hstep]
    refine ⟨by rw [hfold]; exact hrest.1, ?_, ?_⟩
    · intro j hj
      rw [hfold]
      rcases List.mem_cons.mp hj with h | h
      · subst h
        rw [hrest.2.2 j hinotrest, hs1]
        simp
      · exact hrest.2.1 j h
    · intro j hj
      have hji : j ≠ i := fun hcontra => hj (hcontra ▸ List.mem_cons_self i rest)
      have hjrest : j ∉ rest := fun hcontra => hj (List.mem_cons_of_mem i hcontra)
      rw [hfold, hrest.2.2 j hjrest, hs1]
      simp [hji]

end cdp

namespace cdp

/-- Computation of `sendPrepare` on a connected client. -/
theorem sendPrepare_connected (s : WSClientState) (req : Request)
    (hc : s.connected = true) :
    s.sendPrepare req =
      ({ s with requestID := s.requestID + 1
                pendingReqs := s.pendingReqs ++ [s.requestID + 1]
                chanBuf := fun j => if j = s.requestID + 1 then none else s.chanBuf j },
       some (s.requestID + 1,
         { req with requestId := Nat.repr (s.requestID + 1), sessionId := s.sessionID }),
       none) := by
  simp [WSClientState.sendPrepare, hc]

/-- After `n` registrations on a freshly connected client the counter is
`n`, the correlation table holds exactly the ids `1..n` in order, every
one-slot channel is still empty, and the connection fields are intact. -/
theorem sendSteps_spec (url sid : String) (t : Nat) (reqs : Nat → Request) :
    ∀ n : Nat,
      (sendSteps (initConnected url sid t) reqs n).connected = true ∧
      (sendSteps (initConnected url sid t) reqs n).requestID = n ∧
      (sendSteps (initConnected url sid t) reqs n).pendingReqs = List.range' 1 n ∧
      (∀ j, (sendSteps (initConnected url sid t) reqs n).chanBuf j = none) ∧
      (sendSteps (initConnected url sid t) reqs n).sessionID
        = (initConnected url sid t).sessionID := by
  intro n
  induction n with
  | zero =>
    exact ⟨rfl, rfl, rfl, fun j => rfl, rfl⟩
  | succ m ih =>
    obtain ⟨hc, hr, hp, hb, hs⟩ := ih
    have hstep : sendSteps (initConnected url sid t) reqs (m + 1)
        = ((sendSteps (initConnected url sid t) reqs m).sendPrepare (reqs m)).1 := rfl
    rw [hstep, sendPrepare_connected _ _ hc]
    refine ⟨hc, by simp [hr], ?_, ?_, by simp [hs]⟩
    · show (sendSteps (initConnected url sid t) reqs m).pendingReqs
        ++ [(sendSteps (initConnected url sid t) reqs m).requestID + 1]
        = List.range' 1 (m + 1)
      rw [hp, hr, List.range'_concat]
      simp [Nat.add_comm]
    · intro j
      show (if j = (sendSteps (initConnected url sid t) reqs m).requestID + 1
        then none else (sendSteps (initConnected url sid t) reqs m).chanBuf j) = none
      by_cases hj : j = (sendSteps (initConnected url sid t) reqs m).requestID + 1
      · simp [hj]
      · simp [hj, hb j]

end cdp

/-- C1: N concurrent `sendRequest` calls over one persistent channel
allocate ids `1..N`; if the server's replies (one per id, each echoing its
id and carrying no event) are processed by the reader in ANY order, then
every caller's one-slot channel ends up holding exactly the response whose
`RequestID` is the rendering of the id that call allocated — so each
`sendRequest` resolves with its own reply — and every correlation-table
entry has been removed upon delivery (the table is empty). -/
theorem C1_concurrent_out_of_order_correlation
    (n : Nat) (url sid : String) (t : Nat) (reqs : Nat → cdp.Request)
    (g : Nat → cdp.Response) (order : List Nat)
    (hg : ∀ i, 1 ≤ i → i ≤ n → (g i).event = "" ∧ (g i).requestId = Nat.repr i)
    (horder : order.Perm (List.range' 1 n)) :
    ((order.map g).foldl cdp.WSClientState.handleResponse
        (cdp.sendSteps (cdp.initConnected url sid t) reqs n)).pendingReqs = [] ∧
    ∀ i, 1 ≤ i → i ≤ n →
      ((order.map g).foldl cdp.WSClientState.handleResponse
        (cdp.sendSteps (cdp.initConnected url sid t) reqs n)).receive i = some (g i) := by
  obtain ⟨hc, hr, hp, hb, hs⟩ := cdp.sendSteps_spec url sid t reqs n
  have hmemrange : ∀ i ∈ order, 1 ≤ i ∧ i ≤ n := by
    intro i hi
    have := List.mem_range'_1.mp (horder.mem_iff.mp hi)
    omega
  have hmain := cdp.handle_deliver_all g order
    (cdp.sendSteps (cdp.initConnected url sid t) reqs n)
    (horder.nodup_iff.mpr (List.nodup_range' 1 n))
    (by rw [hp]; exact horder.symm)
    (fun i hi => hg i (hmemrange i hi).1 (hmemrange i hi).2)
    (fun i _ => hb i)
  rw [List.foldl_map]
  refine ⟨hmain.1, ?_⟩
  intro i h1 h2
  have hi : i ∈ order := horder.mem_iff.mpr (List.mem_range'_1.mpr ⟨h1, by omega⟩)
  exact hmain.2.1 i hi

/-- Response family used by the C1 witness. -/
def c1Reply (i : Nat) : cdp.Response :=
  { requestId := Nat.repr i, success := true,
    data := [("v", JsonValue.atom (JsonAtom.num i))] }

/-- Witness for C1: three concurrent calls, replies delivered in the
shuffled order 2, 3, 1. -/
theorem C1_concurrent_out_of_order_correlation_witness :
    (([2, 3, 1].map c1Reply).foldl cdp.WSClientState.handleResponse
        (cdp.sendSteps (cdp.initConnected "ws://h" "sess" 7)
          (fun _ => { type := "navigate" }) 3)).pendingReqs = [] ∧
    ∀ i, 1 ≤ i → i ≤ 3 →
      (([2, 3, 1].map c1Reply).foldl cdp.WSClientState.handleResponse
          (cdp.sendSteps (cdp.initConnected "ws://h" "sess" 7)
            (fun _ => { type := "navigate" }) 3)).receive i = some (c1Reply i) :=
  C1_concurrent_out_of_order_correlation 3 "ws://h" "sess" 7
    (fun _ => { type := "navigate" }) c1Reply
    [2, 3, 1] (fun _ _ _ => ⟨rfl, rfl⟩) (by decide)

/-- C5: request ids allocated by successive `sendRequest` calls on one
connection start at 1 and form a strictly increasing sequence; two distinct
calls never receive the same id, no matter how many calls are made. -/
theorem C5_request_ids_strictly_increasing
    (url sid : String) (t : Nat) (reqs : Nat → cdp.Request) :
    (cdp.sendSteps (cdp.initConnected url sid t) reqs 1).requestID = 1 ∧
    (∀ m n : Nat, m < n →
      (cdp.sendSteps (cdp.initConnected url sid t) reqs m).requestID
        < (cdp.sendSteps (cdp.initConnected url sid t) reqs n).requestID) ∧
    (∀ m n : Nat, m ≠ n →
      (cdp.sendSteps (cdp.initConnected url sid t) reqs m).requestID
        ≠ (cdp.sendSteps (cdp.initConnected url sid t) reqs n).requestID) := by
  have hid : ∀ k : Nat,
      (cdp.sendSteps (cdp.initConnected url sid t) reqs k).requestID = k :=
    fun k => (cdp.sendSteps_spec url sid t reqs k).2.1
  refine ⟨hid 1, ?_, ?_⟩
  · intro m n hmn
    rw [hid m, hid n]
    exact hmn
  · intro m n hmn
    rw [hid m, hid n]
    exact hmn

/-- Witness for C5 at the first two calls of a concrete client. -/
theorem C5_request_ids_strictly_increasing_witness :
    (cdp.sendSteps (cdp.initConnected "ws://h" "sess" 0)
      (fun _ => { type := "navigate" }) 1).requestID = 1 ∧
    (cdp.sendSteps (cdp.initConnected "ws://h" "sess" 0)
        (fun _ => { type := "navigate" }) 1).requestID
      < (cdp.sendSteps (cdp.initConnected "ws://h" "sess" 0)
        (fun _ => { type := "navigate" }) 2).requestID ∧
    (cdp.sendSteps (cdp.initConnected "ws://h" "sess" 0)
        (fun _ => { type := "navigate" }) 1).requestID
      ≠ (cdp.sendSteps (cdp.initConnected "ws://h" "sess" 0)
        (fun _ => { type := "navigate" }) 2).requestID :=
  ⟨(C5_request_ids_strictly_increasing "ws://h" "sess" 0
      (fun _ => { type := "navigate" })).1,
   (C5_request_ids_strictly_increasing "ws://h" "sess" 0
      (fun _ => { type := "navigate" })).2.1 1 2 (by norm_num),
   (C5_request_ids_strictly_increasing "ws://h" "sess" 0
      (fun _ => { type := "navigate" })).2.2 1 2 (by norm_num)⟩

/-- C3 as stated FAILS on the code: after concurrent calls A (id 1) and
B (id 2), A's timeout cleanup executes
`delete(wsc.pendingReqs, wsc.requestID)` with the SHARED counter, now 2:
it removes B's live entry 2 and leaves A's own entry 1 dangling in the
table; the claim requires entry 1 to be removed.  This contradicts the
spec's explicit rule (never leave a dangling entry), so it is a bug in the
code: the cleanup should delete the id captured by the call itself. -/
theorem C3_timeout_cleanup_deletes_wrong_entry :
    (cdp.sendSteps (cdp.initConnected "ws://h" "sess" 0)
      (fun _ => { type := "navigate" }) 2).pendingReqs = [1, 2] ∧
    ((cdp.sendSteps (cdp.initConnected "ws://h" "sess" 0)
      (fun _ => { type := "navigate" }) 2).timeoutCleanup).pendingReqs = [1] ∧
    1 ∈ ((cdp.sendSteps (cdp.initConnected "ws://h" "sess" 0)
      (fun _ => { type := "navigate" }) 2).timeoutCleanup).pendingReqs ∧
    2 ∉ ((cdp.sendSteps (cdp.initConnected "ws://h" "sess" 0)
      (fun _ => { type := "navigate" }) 2).timeoutCleanup).pendingReqs := by
  refine ⟨?_, ?_, ?_, ?_⟩ <;> decide

/-- C4 as stated FAILS on the code: `Close` begins with `close(wsc.done)`,
and in Go closing an already-closed channel panics, so the second of two
`Close` calls always panics (modelled as `none`); the first call on a fresh
client succeeds.  The spec requires repeated `Close` calls not to panic, so
this is a bug in the code (no `sync.Once` or guard around `close`). -/
theorem C4_double_close_panics :
    cdp.WSClientState.Close (cdp.NewWebSocketClient "ws://h" "sess" 0) none
      = some ({ cdp.NewWebSocketClient "ws://h" "sess" 0 with doneClosed := true },
              none) ∧
    cdp.WSClientState.Close
      { cdp.NewWebSocketClient "ws://h" "sess" 0 with doneClosed := true } none
      = none := by
  constructor <;> rfl

/-- C6: a frame that carries no event name and either no request id or a
request id with no registered waiter is dropped silently: `handleResponse`
returns the state unchanged — no error, no panic, and no delivery to any
channel (in particular a reply whose id was already resolved or timed out
is not delivered a second time). -/
theorem C6_unmatched_frames_dropped (s : cdp.WSClientState) (r : cdp.Response)
    (hev : r.event = "")
    (hunmatched : r.requestId = "" ∨
      s.pendingReqs.find? (fun id => Nat.repr id == r.requestId) = none) :
    s.handleResponse r = s := by
  unfold cdp.WSClientState.handleResponse
  rw [if_neg (by simp [hev])]
  rcases hunmatched with h | h
  · rw [if_neg (by simp [h])]
  · by_cases hid : r.requestId = ""
    · rw [if_neg (by simp [hid])]
    · rw [if_pos hid, h]

/-- Witness for C6: a reply with id "2" arrives while only id 1 is
registered (for example because the request with id 2 already resolved or
timed out); the state is unchanged. -/
theorem C6_unmatched_frames_dropped_witness :
    (cdp.sendSteps (cdp.initConnected "ws://h" "sess" 0)
        (fun _ => { type := "navigate" }) 1).handleResponse
        { requestId := "2", success := true }
      = cdp.sendSteps (cdp.initConnected "ws://h" "sess" 0)
        (fun _ => { type := "navigate" }) 1 :=
  C6_unmatched_frames_dropped _ { requestId := "2", success := true }
    rfl (Or.inr (by decide))

/-- C10: any operation reaching `sendRequest` before `Connect` has
succeeded (`conn == nil`) returns the "not connected" error without а
panic, allocates nothing, and returns the state — hence the correlation
table and the request-id counter — unchanged. -/
theorem C10_send_when_not_connected (s : cdp.WSClientState) (req : cdp.Request)
    (h : s.connected = false) :
    s.sendPrepare req = (s, none, some "not connected to WebSocket server") := by
  simp [cdp.WSClientState.sendPrepare, h]

/-- Witness for C10: a freshly constructed, never-connected client. -/
theorem C10_send_when_not_connected_witness :
    (cdp.NewWebSocketClient "ws://h" "sess" 0).sendPrepare { type := "navigate" }
      = (cdp.NewWebSocketClient "ws://h" "sess" 0, none,
         some "not connected to WebSocket server") :=
  C10_send_when_not_connected (cdp.NewWebSocketClient "ws://h" "sess" 0)
    { type := "navigate" } rfl

namespace cdpsdk

/-- `HTTPResponse` from `http_client.go`: the JSON reply envelope
`{success, data?, error?}`. -/
structure HTTPResponse where
  success : Bool
  data : JsonObject := []
  error : String := ""
deriving DecidableEq, Repr

/-- `HTTPClient` from `http_client.go`: base URL, session id, the
underlying `http.Client`'s timeout (nanoseconds) and the tracked page-id
list. -/
structure HTTPClient where
  baseURL : String
  sessionID : String
  timeoutNs : Nat
  pages : List String
deriving DecidableEq, Repr

/-- `NewHTTPClient(baseURL, sessionID)`: stores the given session id
unchanged — a blank one stays blank (the source comments that it is filled
in later by `StartBrowser`/`ConnectBrowser`) — and sets a five-minute
timeout. -/
def NewHTTPClient (baseURL sessionID : String) : HTTPClient :=
  { baseURL := baseURL
    sessionID := sessionID
    timeoutNs := 300000000000
    pages := [] }

/-- What the transport hands back to `doRequest`: `http.Client.Do` failure,
`io.ReadAll` failure, or a reply with its status code, its body as text
(used verbatim in the non-200 error message) and the result of
`json.Unmarshal` on that body. -/
inductive WireOutcome where
  | sendError (msg : String) : WireOutcome
  | readError (msg : String) : WireOutcome
  | reply (status : Nat) (bodyText : String)
      (parsed : Except String HTTPResponse) : WireOutcome

/-- `doRequest` (`http_client.go` lines 41–84), from the point the request
has been built: propagate transport and read errors, reject any non-200
status, reject an unparsable body, turn a `success=false` envelope into a
`server error: <error>` error with no payload, and return a `success=true`
envelope as the payload with no error.  The Go function returns the pair
`(*HTTPResponse, error)`, modelled verbatim. -/
def HTTPClient.doRequest (_hc : HTTPClient) (outcome : WireOutcome) :
    Option HTTPResponse × Option String :=
  match outcome with
  | .sendError m => (none, some ("failed to send request: " ++ m))
  | .readError m => (none, some ("failed to read response body: " ++ m))
  | .reply status bodyText parsed =>
    if status ≠ 200 then
      (none, some ("request failed with status " ++ Nat.repr status ++ ": " ++ bodyText))
    else
      match parsed with
      | .error m => (none, some ("failed to unmarshal response: " ++ m))
      | .ok env =>
        if !env.success then (none, some ("server error: " ++ env.error))
        else (some env, none)

/-- What the transport hands back to `doRequestBinary`: `http.Client.Do`
failure, or a reply with its status and the `io.ReadAll` result (in this
function the status is checked BEFORE the body is read). -/
inductive BinaryOutcome where
  | sendError (msg : String) : BinaryOutcome
  | reply (status : Nat) (readResult : Except String (List Nat)) : BinaryOutcome

/-- `doRequestBinary` (`http_client.go` lines 87–121): propagate transport
errors, reject any non-200 status, and otherwise return the raw body bytes
untouched — no envelope, no success flag. -/
def HTTPClient.doRequestBinary (_hc : HTTPClient) (outcome : BinaryOutcome) :
    Option (List Nat) × Option String :=
  match outcome with
  | .sendError m => (none, some ("failed to send request: " ++ m))
  | .reply status readResult =>
    if status ≠ 200 then
      (none, some ("request failed with status " ++ Nat.repr status))
    else
      match readResult with
      | .error m => (none, some ("failed to read response body: " ++ m))
      | .ok b => (some b, none)

/-- Shared tail of `StartBrowser` (lines 135–152) and `ConnectBrowser`
(lines 166–183) after a successful `doRequest`: adopt the server-returned
`sessionId` (error if absent), then rebuild the page list from the `pages`
array when present, keeping only its string elements. -/
def HTTPClient.adoptSessionAndPages (hc : HTTPClient) (resp : HTTPResponse) :
    HTTPClient × Option String :=
  match resp.data.lookup "sessionId" with
  | some (.atom (.str sid)) =>
    let hc1 := { hc with sessionID := sid }
    match resp.data.lookup "pages" with
    | some (.arr l) =>
      ({ hc1 with
          pages := l.filterMap (fun a => match a with
            | .str s => some s
            | _ => none) }, none)
    | _ => (hc1, none)
  | _ => (hc, some "sessionId not found in response")

end cdpsdk

/-- C2: for a reply that parses as a well-formed envelope, `doRequest`
returns the envelope (whose payload is the decoded `data` field) with a
nil error when `success=true`, and a non-nil error whose message carries
the server-supplied `error` string — with no payload — when
`success=false`; in particular the `success=false` case never produces a
nil error together with a nil payload. -/
theorem C2_envelope_success_and_error (hc : cdpsdk.HTTPClient)
    (bodyText : String) (d : JsonObject) (e : String) :
    (hc.doRequest (.reply 200 bodyText
        (.ok { success := true, data := d, error := e }))
      = (some { success := true, data := d, error := e }, none)) ∧
    (hc.doRequest (.reply 200 bodyText
        (.ok { success := false, data := d, error := e }))
      = (none, some ("server error: " ++ e))) ∧
    ¬((hc.doRequest (.reply 200 bodyText
        (.ok { success := false, data := d, error := e }))).1 = none ∧
      (hc.doRequest (.reply 200 bodyText
        (.ok { success := false, data := d, error := e }))).2 = none) := by
  refine ⟨rfl, rfl, ?_⟩
  intro hcontra
  have := hcontra.2
  simp [cdpsdk.HTTPClient.doRequest] at this

/-- Witness for C2 on a concrete client and envelope. -/
theorem C2_envelope_success_and_error_witness :
    ((cdpsdk.NewHTTPClient "http://h" "s").doRequest (.reply 200 "body"
        (.ok { success := true, data := [("k", JsonValue.atom (JsonAtom.str "v"))],
               error := "boom" }))
      = (some { success := true, data := [("k", JsonValue.atom (JsonAtom.str "v"))],
                error := "boom" }, none)) ∧
    ((cdpsdk.NewHTTPClient "http://h" "s").doRequest (.reply 200 "body"
        (.ok { success := false, data := [("k", JsonValue.atom (JsonAtom.str "v"))],
               error := "boom" }))
      = (none, some ("server error: " ++ "boom"))) ∧
    ¬(((cdpsdk.NewHTTPClient "http://h" "s").doRequest (.reply 200 "body"
        (.ok { success := false, data := [("k", JsonValue.atom (JsonAtom.str "v"))],
               error := "boom" }))).1 = none ∧
      ((cdpsdk.NewHTTPClient "http://h" "s").doRequest (.reply 200 "body"
        (.ok { success := false, data := [("k", JsonValue.atom (JsonAtom.str "v"))],
               error := "boom" }))).2 = none) :=
  C2_envelope_success_and_error (cdpsdk.NewHTTPClient "http://h" "s") "body"
    [("k", JsonValue.atom (JsonAtom.str "v"))] "boom"

/-- C8: a binary call (`Screenshot`) whose transport status is 200 returns
exactly the body bytes, unmodified, whatever they are, and without looking
at any success flag; any non-OK status yields an error and no bytes. -/
theorem C8_binary_passthrough (hc : cdpsdk.HTTPClient) :
    (∀ b : List Nat, hc.doRequestBinary (.reply 200 (.ok b)) = (some b, none)) ∧
    (∀ (st : Nat) (rr : Except String (List Nat)), st ≠ 200 →
      hc.doRequestBinary (.reply st rr)
        = (none, some ("request failed with status " ++ Nat.repr st))) := by
  refine ⟨fun b => rfl, ?_⟩
  intro st rr hst
  simp [cdpsdk.HTTPClient.doRequestBinary, hst]

/-- Witness for C8: arbitrary PNG-ish bytes come back untouched, and a 500
status is an error with no bytes. -/
theorem C8_binary_passthrough_witness :
    ((cdpsdk.NewHTTPClient "http://h" "s").doRequestBinary
        (.reply 200 (.ok [137, 80, 78, 71, 0, 255])) = (some [137, 80, 78, 71, 0, 255], none)) ∧
    ((cdpsdk.NewHTTPClient "http://h" "s").doRequestBinary
        (.reply 500 (.ok [1, 2, 3]))
      = (none, some ("request failed with status " ++ Nat.repr 500))) :=
  ⟨(C8_binary_passthrough (cdpsdk.NewHTTPClient "http://h" "s")).1 [137, 80, 78, 71, 0, 255],
   (C8_binary_passthrough (cdpsdk.NewHTTPClient "http://h" "s")).2 500
     (.ok [1, 2, 3]) (by norm_num)⟩

namespace cdp

/-- `handleResponse` never changes the session id. -/
theorem handleResponse_preserves_sessionID (s : WSClientState) (r : Response) :
    (s.handleResponse r).sessionID = s.sessionID := by
  unfold WSClientState.handleResponse
  repeat' split
  all_goals rfl

/-- `sendRequest` never changes the session id. -/
theorem sendPrepare_preserves_sessionID (s : WSClientState) (req : Request) :
    ((s.sendPrepare req).1).sessionID = s.sessionID := by
  unfold WSClientState.sendPrepare
  split
  all_goals rfl

/-- `Connect` never changes the session id. -/
theorem Connect_preserves_sessionID (s : WSClientState) (b : Bool) :
    ((s.Connect b).1).sessionID = s.sessionID := by
  unfold WSClientState.Connect
  split
  all_goals rfl

/-- The timeout/cancel cleanup never changes the session id. -/
theorem timeoutCleanup_preserves_sessionID (s : WSClientState) :
    (s.timeoutCleanup).sessionID = s.sessionID := rfl

end cdp

/-- C9 as stated FAILS on the code for the HTTP client: `NewHTTPClient`
stores a blank session id as-is — no client-side generation happens at
construction — and `StartBrowser`/`ConnectBrowser` overwrite whatever
session id the client already had with the server-returned one, so the id
is not immutable once set.  Both refutations at concrete inputs. -/
theorem C9_counterexample_http_client_session :
    (cdpsdk.NewHTTPClient "http://h" "").sessionID = "" ∧
    ((cdpsdk.NewHTTPClient "http://h" "A").adoptSessionAndPages
        { success := true,
          data := [("sessionId", JsonValue.atom (JsonAtom.str "B"))] }).1.sessionID
      = "B" := by
  exact ⟨rfl, rfl⟩

/-- C9 amended: the WebSocket client auto-generates a session id
client-side when constructed with a blank one (`session-<unixnano>`, never
blank), keeps a non-blank configured id verbatim, and no client operation
ever changes it; the HTTP client stores the configured session id
unchanged at construction (blank stays blank) and adopts the
server-returned session id during `StartBrowser`/`ConnectBrowser`,
overwriting the previous value. -/
theorem C9_amended_session_id_handling :
    (∀ url : String, ∀ t : Nat,
      (cdp.NewWebSocketClient url "" t).sessionID = "session-" ++ Nat.repr t ∧
      (cdp.NewWebSocketClient url "" t).sessionID ≠ "") ∧
    (∀ url sid : String, ∀ t : Nat, sid ≠ "" →
      (cdp.NewWebSocketClient url sid t).sessionID = sid) ∧
    (∀ (s : cdp.WSClientState) (req : cdp.Request) (r : cdp.Response) (b : Bool),
      ((s.sendPrepare req).1).sessionID = s.sessionID ∧
      (s.handleResponse r).sessionID = s.sessionID ∧
      ((s.Connect b).1).sessionID = s.sessionID ∧
      (s.timeoutCleanup).sessionID = s.sessionID) ∧
    (∀ base sid : String, (cdpsdk.NewHTTPClient base sid).sessionID = sid) ∧
    (∀ (hc : cdpsdk.HTTPClient) (sid : String) (rest : JsonObject),
      ((hc.adoptSessionAndPages
        { success := true,
          data := ("sessionId", JsonValue.atom (JsonAtom.str sid)) :: rest }).1).sessionID
        = sid) := by
  refine ⟨?_, ?_, ?_, fun _ _ => rfl, ?_⟩
  · intro url t
    constructor
    · rfl
    · intro hcontra
      have := congrArg String.data hcontra
      simp [cdp.NewWebSocketClient, String.data_append] at this
  · intro url sid t hsid
    simp [cdp.NewWebSocketClient, hsid]
  · intro s req r b
    exact ⟨cdp.sendPrepare_preserves_sessionID s req,
      cdp.handleResponse_preserves_sessionID s r,
      cdp.Connect_preserves_sessionID s b,
      cdp.timeoutCleanup_preserves_sessionID s⟩
  · intro hc sid rest
    simp [cdpsdk.HTTPClient.adoptSessionAndPages, JsonObject.lookup]
    split
    · rfl
    · rfl

/-- Witness for C9 amended, at concrete clients. -/
theorem C9_amended_session_id_handling_witness :
    (cdp.NewWebSocketClient "ws://h" "" 42).sessionID = "session-" ++ Nat.repr 42 ∧
    (cdp.NewWebSocketClient "ws://h" "mysess" 42).sessionID = "mysess" ∧
    (cdpsdk.NewHTTPClient "http://h" "other").sessionID = "other" ∧
    ((cdpsdk.NewHTTPClient "http://h" "other").adoptSessionAndPages
      { success := true,
        data := [("sessionId", JsonValue.atom (JsonAtom.str "srv"))] }).1.sessionID
      = "srv" :=
  ⟨(C9_amended_session_id_handling.1 "ws://h" 42).1,
   C9_amended_session_id_handling.2.1 "ws://h" "mysess" 42 (by decide),
   C9_amended_session_id_handling.2.2.2.1 "http://h" "other",
   C9_amended_session_id_handling.2.2.2.2 (cdpsdk.NewHTTPClient "http://h" "other")
     "srv" []⟩

namespace cdpsdk

/-- A backing array for a Go `[]string`: the cells written so far plus the
allocated capacity. -/
structure GoBuffer where
  data : List String
  cap : Nat
deriving DecidableEq, Repr

/-- A Go slice value: a reference to a backing array in the store plus the
slice length (every slice in `locator.go` starts at offset 0). -/
structure GoSlice where
  buf : Nat
  len : Nat
deriving DecidableEq, Repr

/-- The heap of backing arrays. -/
abbrev SliceStore := List GoBuffer

/-- Write `x` at cell `i` of a backing array; in every reachable use `i` is
at most the number of written cells, so this overwrites or extends by one. -/
def GoBuffer.write (b : GoBuffer) (i : Nat) (x : String) : GoBuffer :=
  { b with data := if i < b.data.length then b.data.set i x else b.data ++ [x] }

/-- Capacity growth of the Go (gc) runtime for small slices: doubling. -/
def growCap (c : Nat) : Nat := if c = 0 then 1 else 2 * c

/-- Go `append(s, x)` for a `[]string`: when the backing array has spare
capacity the new element is written in place at index `s.len` — the
backing array stays SHARED with every other slice over it — otherwise a
fresh, larger backing array receives a copy of the visible cells plus `x`. -/
def SliceStore.append (σ : SliceStore) (s : GoSlice) (x : String) :
    SliceStore × GoSlice :=
  match σ.get? s.buf with
  | none => (σ, s)
  | some b =>
    if s.len < b.cap then
      (σ.set s.buf (b.write s.len x), { s with len := s.len + 1 })
    else
      (σ ++ [{ data := b.data.take s.len ++ [x], cap := growCap b.cap }],
       { buf := σ.length, len := s.len + 1 })

/-- The elements a Go slice denotes: the first `len` cells of its backing
array. -/
def GoSlice.view (σ : SliceStore) (s : GoSlice) : List String :=
  match σ.get? s.buf with
  | none => []
  | some b => b.data.take s.len

/-- The slice literal `[]string{x}`: a fresh backing array, len = cap = 1. -/
def SliceStore.singleton (σ : SliceStore) (x : String) : SliceStore × GoSlice :=
  (σ ++ [{ data := [x], cap := 1 }], { buf := σ.length, len := 1 })

/-- `Locator` from `locator.go`: page id, flattened selector string and the
selector-fragment slice (`selectors`); the embedded client pointer is
omitted, as chaining never touches it. -/
structure Locator where
  pageID : String
  selector : String
  selectors : GoSlice
deriving DecidableEq, Repr

/-- `HTTPClient.Locator(pageID, selector)` (`locator.go` lines 16–23):
root locator with a one-element fragment slice. -/
def HTTPClient.Locator (_hc : HTTPClient) (σ : SliceStore)
    (pageID selector : String) : SliceStore × Locator :=
  let p := σ.singleton selector
  (p.1, { pageID := pageID, selector := selector, selectors := p.2 })

/-- The chaining method `(l *Locator) Locator(selector)` (`locator.go`
lines 26–34), here named `locator` so the method name does not shadow the
structure: child locator with the space-joined selector and
`append(l.selectors, selector)` as its fragment slice. -/
def Locator.locator (l : Locator) (σ : SliceStore) (selector : String) :
    SliceStore × Locator :=
  let newSelector := l.selector ++ " " ++ selector
  let p := σ.append l.selectors selector
  (p.1, { pageID := l.pageID, selector := newSelector, selectors := p.2 })

/-- `GetSelectors()`: the fragment list a locator exposes. -/
def Locator.GetSelectors (l : Locator) (σ : SliceStore) : List String :=
  l.selectors.view σ

/-- `GetSelector()`: the flattened selector string. -/
def Locator.GetSelector (l : Locator) : String :=
  l.selector

end cdpsdk

/-- The C7 scenario, step 1: root locator for selector "div". -/
def c7Root : cdpsdk.SliceStore × cdpsdk.Locator :=
  (cdpsdk.NewHTTPClient "http://h" "s").Locator [] "page1" "div"

/-- The C7 scenario, step 2: chain "p". -/
def c7DivP : cdpsdk.SliceStore × cdpsdk.Locator :=
  c7Root.2.locator c7Root.1 "p"

/-- The C7 scenario, step 3: chain "a"; this is the shared parent. -/
def c7DivPA : cdpsdk.SliceStore × cdpsdk.Locator :=
  c7DivP.2.locator c7DivP.1 "a"

/-- The C7 scenario, step 4: first child "x" chained from the parent. -/
def c7ChildX : cdpsdk.SliceStore × cdpsdk.Locator :=
  c7DivPA.2.locator c7DivPA.1 "x"

/-- The C7 scenario, step 5: second child "y" chained from the same
parent, after "x". -/
def c7ChildY : cdpsdk.SliceStore × cdpsdk.Locator :=
  c7DivPA.2.locator c7ChildX.1 "y"

/-- C7 as stated partly FAILS on the code.  The chain
`Locator("div").Locator("p").Locator("a")` does yield selector "div p a"
and fragments ["div","p","a"], and the parent is never mutated (its
selector and fragment view stay unchanged even after two children are
chained from it).  But the children are NOT independent instances: the
parent's fragment slice has length 3 and capacity 4, so
`append(l.selectors, ...)` writes both children's fourth fragment into the
SAME shared backing array — after chaining sibling "y", the earlier
sibling "x" reads fragments ["div","p","a","y"].  The spec requires
chaining never to mutate an existing Locator, so this is a bug in the code
(append on a shared slice instead of copying). -/
theorem C7_sibling_chain_aliasing_mutates_fragments :
    c7DivPA.2.GetSelector = "div p a" ∧
    c7DivPA.2.GetSelectors c7DivPA.1 = ["div", "p", "a"] ∧
    c7ChildX.2.GetSelectors c7ChildX.1 = ["div", "p", "a", "x"] ∧
    c7DivPA.2.GetSelectors c7ChildY.1 = ["div", "p", "a"] ∧
    c7ChildY.2.GetSelectors c7ChildY.1 = ["div", "p", "a", "y"] ∧
    c7ChildX.2.GetSelectors c7ChildY.1 = ["div", "p", "a", "y"] ∧
    c7ChildX.2.GetSelectors c7ChildY.1 ≠ ["div", "p", "a", "x"] := by
  decide
